import Mathlib

/-!
Verification of the `useFormValidation` hook (src: useFormValidation.ts).

The data model (`ValidationRules`, `FormData`, `ValidationErrors`), the
default rules, the shallow rule merge, the error-state bookkeeping
(`isValid`, `hasValidationAttempted`, `clearErrors`, `clearFieldError`,
`setError`) are embedded from the source.  The bodies of `validateField`
and `validateForm` are unimplemented stubs in the source
("// Field validation logic will be implemented here"); their validation
logic is modelled from the specification's contract, as marked on each
such definition.
-/

namespace FormValidation

/-- The fully-populated rule configuration, `Required<ValidationRules>`
in the source. -/
structure RequiredValidationRules where
  usernameMinLength : Nat
  usernameMaxLength : Nat
  passwordMinLength : Nat
  passwordRequireSpecialChars : Bool
  isGenderRequired : Bool
  genderOptions : List String
deriving Repr, DecidableEq

/-- Caller-supplied partial `ValidationRules`: a field is `none` when the
caller's object omits the key. -/
structure ValidationRules where
  usernameMinLength : Option Nat := none
  usernameMaxLength : Option Nat := none
  passwordMinLength : Option Nat := none
  passwordRequireSpecialChars : Option Bool := none
  isGenderRequired : Option Bool := none
  genderOptions : Option (List String) := none
deriving Repr, DecidableEq

/-- The `DEFAULT_RULES` constant of the source. -/
def DEFAULT_RULES : RequiredValidationRules :=
  { usernameMinLength := 3
    usernameMaxLength := 20
    passwordMinLength := 8
    passwordRequireSpecialChars := true
    isGenderRequired := false
    genderOptions := ["male", "female", "other", "prefer-not-to-say"] }

/-- The shallow merge `{ ...DEFAULT_RULES, ...rules }` of the source, for a
caller object whose present keys carry defined values: each key takes the
caller's value when present and the default otherwise. -/
def mergeRules (rules : ValidationRules) : RequiredValidationRules :=
  { usernameMinLength := rules.usernameMinLength.getD DEFAULT_RULES.usernameMinLength
    usernameMaxLength := rules.usernameMaxLength.getD DEFAULT_RULES.usernameMaxLength
    passwordMinLength := rules.passwordMinLength.getD DEFAULT_RULES.passwordMinLength
    passwordRequireSpecialChars :=
      rules.passwordRequireSpecialChars.getD DEFAULT_RULES.passwordRequireSpecialChars
    isGenderRequired := rules.isGenderRequired.getD DEFAULT_RULES.isGenderRequired
    genderOptions := rules.genderOptions.getD DEFAULT_RULES.genderOptions }

/-- The submitted form values (`FormData` in the source); `gender` is an
optional key. -/
structure FormData where
  username : String
  password : String
  gender : Option String := none
deriving Repr, DecidableEq

/-- The error report (`ValidationErrors` in the source): a map from the
four possible keys to a message; a `none` field means the key is absent,
i.e. the field is currently valid. -/
structure ValidationErrors where
  username : Option String := none
  password : Option String := none
  gender : Option String := none
  form : Option String := none
deriving Repr, DecidableEq

/-- The empty error map `{}`. -/
def emptyErrors : ValidationErrors := {}

/-- The list of keys present in the error map, as `Object.keys(errors)`
would produce it. -/
def errorKeys (e : ValidationErrors) : List String :=
  (if e.username.isSome then ["username"] else []) ++
    (if e.password.isSome then ["password"] else []) ++
      (if e.gender.isSome then ["gender"] else []) ++
        (if e.form.isSome then ["form"] else [])

/-- The derived `isValid` flag of the source:
`Object.keys(errors).length === 0`. -/
def isValid (e : ValidationErrors) : Bool :=
  (errorKeys e).length == 0

/-- A character outside `[A-Za-z0-9]`. -/
def isSpecialChar (c : Char) : Bool :=
  !(c.isAlpha || c.isDigit)

/-- Whether the string contains at least one character outside
`[A-Za-z0-9]`. -/
def hasSpecialChar (s : String) : Bool :=
  s.data.any isSpecialChar

/-- Modelled from the spec: the username rule of the stubbed
`validateField` body — `TooShort` when length is below
`usernameMinLength`, `TooLong` when length exceeds `usernameMaxLength`,
no error otherwise. -/
def validateUsername (rules : RequiredValidationRules) (value : String) : Option String :=
  if value.length < rules.usernameMinLength then some "TooShort"
  else if value.length > rules.usernameMaxLength then some "TooLong"
  else none

/-- Modelled from the spec: the password rule of the stubbed
`validateField` body — `TooShort` when length is below
`passwordMinLength`; when `passwordRequireSpecialChars` is set,
`MissingSpecialChar` when no character outside `[A-Za-z0-9]` is
present. -/
def validatePassword (rules : RequiredValidationRules) (value : String) : Option String :=
  if value.length < rules.passwordMinLength then some "TooShort"
  else if rules.passwordRequireSpecialChars && !hasSpecialChar value then
    some "MissingSpecialChar"
  else none

/-- Modelled from the spec: the gender rule of the stubbed
`validateField` body — always valid when `isGenderRequired` is false;
otherwise `Required` on an empty value and `InvalidOption` on a value
outside `genderOptions`. -/
def validateGender (rules : RequiredValidationRules) (value : String) : Option String :=
  if !rules.isGenderRequired then none
  else if value.isEmpty then some "Required"
  else if !(rules.genderOptions.contains value) then some "InvalidOption"
  else none

/-- Modelled from the spec: the stubbed `validateField` body — dispatch
on the field name, returning the field's optional error message as data;
an unknown field name fails abruptly with the `UnknownField` signal
(`Except.error`), distinct from returned validation outcomes
(`Except.ok`). -/
def validateField (rules : RequiredValidationRules) (fieldName : String) (value : String) :
    Except String (Option String) :=
  if fieldName = "username" then .ok (validateUsername rules value)
  else if fieldName = "password" then .ok (validatePassword rules value)
  else if fieldName = "gender" then .ok (validateGender rules value)
  else .error "UnknownField"

/-- Modelled from the spec: the aggregation of the stubbed `validateForm`
body — validate `username` and `password` unconditionally, `gender` only
when `isGenderRequired` is true (an absent `gender` key is read as the
empty value), and record exactly the fields that produced an error. -/
def validateForm (rules : RequiredValidationRules) (data : FormData) : ValidationErrors :=
  { username := validateUsername rules data.username
    password := validatePassword rules data.password
    gender :=
      if rules.isGenderRequired then validateGender rules (data.gender.getD "") else none
    form := none }

/-- The field names of `FormData` (`keyof FormData`), the domain of
`clearFieldError` and of the `fieldName` parameter of `validateField`. -/
inductive FieldName where
  | username
  | password
  | gender
deriving Repr, DecidableEq

/-- The field names of `ValidationErrors` (`keyof ValidationErrors`), the
domain of `setError`. -/
inductive ErrorField where
  | username
  | password
  | gender
  | form
deriving Repr, DecidableEq

/-- Read the entry of the error map at a `FormData` key. -/
def getField (e : ValidationErrors) : FieldName → Option String
  | .username => e.username
  | .password => e.password
  | .gender => e.gender

/-- The `clearFieldError` update of the source: `delete newErrors[fieldName]`
on a copy of the map. -/
def clearFieldError (e : ValidationErrors) : FieldName → ValidationErrors
  | .username => { e with username := none }
  | .password => { e with password := none }
  | .gender => { e with gender := none }

/-- The `setError` update of the source:
`{ ...prev, [fieldName]: error }`. -/
def setError (e : ValidationErrors) (f : ErrorField) (msg : String) : ValidationErrors :=
  match f with
  | .username => { e with username := some msg }
  | .password => { e with password := some msg }
  | .gender => { e with gender := some msg }
  | .form => { e with form := some msg }

/-- The mutable state owned by one hook instance: the `errors` map and the
`hasValidationAttempted` flag. -/
structure ValidatorState where
  errors : ValidationErrors
  hasValidationAttempted : Bool
deriving Repr, DecidableEq

/-- The state at construction: empty error map, flag false. -/
def initialState : ValidatorState :=
  { errors := emptyErrors, hasValidationAttempted := false }

/-- The stateful `validateForm` call of the source: it marks validation as
attempted, stores the aggregated map, and returns that same map. -/
def validateFormCall (rules : RequiredValidationRules) (data : FormData)
    (_s : ValidatorState) : ValidationErrors × ValidatorState :=
  let newErrors := validateForm rules data
  (newErrors, { errors := newErrors, hasValidationAttempted := true })

/-- One operation of the hook's API, for reachability arguments. -/
inductive Op where
  | vField : String → String → Op
  | vForm : FormData → Op
  | clearErrors : Op
  | clearFieldError : FieldName → Op
  | setError : ErrorField → String → Op
deriving Repr, DecidableEq

/-- The state transition of each operation: `validateField` is pure and
leaves the state unchanged; `validateForm` stores its result and sets the
flag; `clearErrors` resets both; `clearFieldError` and `setError` edit
the map and leave the flag alone. -/
def step (rules : RequiredValidationRules) (s : ValidatorState) : Op → ValidatorState
  | .vField _ _ => s
  | .vForm data => (validateFormCall rules data s).2
  | .clearErrors => { errors := emptyErrors, hasValidationAttempted := false }
  | .clearFieldError f => { s with errors := clearFieldError s.errors f }
  | .setError f msg => { s with errors := setError s.errors f msg }

/-- Run a sequence of operations from a state. -/
def runOps (rules : RequiredValidationRules) (s : ValidatorState) : List Op → ValidatorState
  | [] => s
  | op :: rest => runOps rules (step rules s op) rest

/-- A caller's rules object under JavaScript runtime semantics: the outer
`Option` records whether the key is present on the object, the inner one
whether its value is defined (`some v`) or explicitly `undefined`
(`none`). -/
structure JSValidationRules where
  usernameMinLength : Option (Option Nat) := none
  usernameMaxLength : Option (Option Nat) := none
  passwordMinLength : Option (Option Nat) := none
  passwordRequireSpecialChars : Option (Option Bool) := none
  isGenderRequired : Option (Option Bool) := none
  genderOptions : Option (Option (List String)) := none
deriving Repr, DecidableEq

/-- The result of the spread at JavaScript runtime: every key is present
(the defaults supply them all), but a value may be `undefined`. -/
structure JSMergedRules where
  usernameMinLength : Option Nat
  usernameMaxLength : Option Nat
  passwordMinLength : Option Nat
  passwordRequireSpecialChars : Option Bool
  isGenderRequired : Option Bool
  genderOptions : Option (List String)
deriving Repr, DecidableEq

/-- The runtime semantics of `{ ...DEFAULT_RULES, ...rules }`: a key of
`rules` that is present — even with value `undefined` — overwrites the
default; only an absent key falls back to the default. -/
def spreadMergeRules (rules : JSValidationRules) : JSMergedRules :=
  { usernameMinLength := rules.usernameMinLength.getD (some DEFAULT_RULES.usernameMinLength)
    usernameMaxLength := rules.usernameMaxLength.getD (some DEFAULT_RULES.usernameMaxLength)
    passwordMinLength := rules.passwordMinLength.getD (some DEFAULT_RULES.passwordMinLength)
    passwordRequireSpecialChars :=
      rules.passwordRequireSpecialChars.getD (some DEFAULT_RULES.passwordRequireSpecialChars)
    isGenderRequired := rules.isGenderRequired.getD (some DEFAULT_RULES.isGenderRequired)
    genderOptions := rules.genderOptions.getD (some DEFAULT_RULES.genderOptions) }

/-- The last relevant operation decides the attempted flag: `validateForm`
sets it, `clearErrors` resets it, everything else leaves it alone. -/
def flagAfter (b : Bool) : List Op → Bool
  | [] => b
  | Op.vForm _ :: rest => flagAfter true rest
  | Op.clearErrors :: rest => flagAfter false rest
  | Op.vField _ _ :: rest => flagAfter b rest
  | Op.clearFieldError _ :: rest => flagAfter b rest
  | Op.setError _ _ :: rest => flagAfter b rest

lemma validateField_username (rules : RequiredValidationRules) (v : String) :
    validateField rules "username" v = .ok (validateUsername rules v) := rfl

lemma validateField_password (rules : RequiredValidationRules) (v : String) :
    validateField rules "password" v = .ok (validatePassword rules v) := rfl

lemma validateField_gender (rules : RequiredValidationRules) (v : String) :
    validateField rules "gender" v = .ok (validateGender rules v) := rfl

lemma runOps_flag (rules : RequiredValidationRules) :
    ∀ (ops : List Op) (s : ValidatorState),
      (runOps rules s ops).hasValidationAttempted =
        flagAfter s.hasValidationAttempted ops := by
  intro ops
  induction ops with
  | nil => intro s; rfl
  | cons op rest ih =>
    intro s
    cases op <;> simp [runOps, step, flagAfter, validateFormCall, ih]

lemma flagAfter_true_iff :
    ∀ (ops : List Op) (b : Bool),
      flagAfter b ops = true ↔
        ((∃ pre data post, ops = pre ++ Op.vForm data :: post ∧ Op.clearErrors ∉ post) ∨
          (b = true ∧ Op.clearErrors ∉ ops)) := by
  intro ops
  induction ops with
  | nil =>
    intro b
    simp [flagAfter]
  | cons op rest ih =>
    intro b
    cases op with
    | vForm d0 =>
      rw [show flagAfter b (Op.vForm d0 :: rest) = flagAfter true rest from rfl, ih true]
      constructor
      · rintro (⟨pre, d, post, heq, hpost⟩ | ⟨-, hrest⟩)
        · exact Or.inl ⟨Op.vForm d0 :: pre, d, post, by rw [heq]; rfl, hpost⟩
        · exact Or.inl ⟨[], d0, rest, rfl, hrest⟩
      · rintro (⟨pre, d, post, heq, hpost⟩ | ⟨hb, hni⟩)
        · cases pre with
          | nil =>
            simp only [List.nil_append, List.cons.injEq] at heq
            exact Or.inr ⟨rfl, heq.2 ▸ hpost⟩
          | cons p0 pre2 =>
            simp only [List.cons_append, List.cons.injEq] at heq
            exact Or.inl ⟨pre2, d, post, heq.2, hpost⟩
        · exact Or.inr ⟨rfl, fun hm => hni (List.mem_cons_of_mem _ hm)⟩
    | clearErrors =>
      rw [show flagAfter b (Op.clearErrors :: rest) = flagAfter false rest from rfl, ih false]
      constructor
      · rintro (⟨pre, d, post, heq, hpost⟩ | ⟨hb, -⟩)
        · exact Or.inl ⟨Op.clearErrors :: pre, d, post, by rw [heq]; rfl, hpost⟩
        · exact absurd hb (by simp)
      · rintro (⟨pre, d, post, heq, hpost⟩ | ⟨-, hni⟩)
        · cases pre with
          | nil => simp at heq
          | cons p0 pre2 =>
            simp only [List.cons_append, List.cons.injEq] at heq
            exact Or.inl ⟨pre2, d, post, heq.2, hpost⟩
        · exact absurd (List.mem_cons_self _ _) hni
    | vField a v =>
      rw [show flagAfter b (Op.vField a v :: rest) = flagAfter b rest from rfl, ih b]
      constructor
      · rintro (⟨pre, d, post, heq, hpost⟩ | ⟨hb, hni⟩)
        · exact Or.inl ⟨Op.vField a v :: pre, d, post, by rw [heq]; rfl, hpost⟩
        · exact Or.inr ⟨hb, by simp [hni]⟩
      · rintro (⟨pre, d, post, heq, hpost⟩ | ⟨hb, hni⟩)
        · cases pre with
          | nil => simp at heq
          | cons p0 pre2 =>
            simp only [List.cons_append, List.cons.injEq] at heq
            exact Or.inl ⟨pre2, d, post, heq.2, hpost⟩
        · exact Or.inr ⟨hb, fun hm => hni (List.mem_cons_of_mem _ hm)⟩
    | clearFieldError f =>
      rw [show flagAfter b (Op.clearFieldError f :: rest) = flagAfter b rest from rfl, ih b]
      constructor
      · rintro (⟨pre, d, post, heq, hpost⟩ | ⟨hb, hni⟩)
        · exact Or.inl ⟨Op.clearFieldError f :: pre, d, post, by rw [heq]; rfl, hpost⟩
        · exact Or.inr ⟨hb, by simp [hni]⟩
      · rintro (⟨pre, d, post, heq, hpost⟩ | ⟨hb, hni⟩)
        · cases pre with
          | nil => simp at heq
          | cons p0 pre2 =>
            simp only [List.cons_append, List.cons.injEq] at heq
            exact Or.inl ⟨pre2, d, post, heq.2, hpost⟩
        · exact Or.inr ⟨hb, fun hm => hni (List.mem_cons_of_mem _ hm)⟩
    | setError f msg =>
      rw [show flagAfter b (Op.setError f msg :: rest) = flagAfter b rest from rfl, ih b]
      constructor
      · rintro (⟨pre, d, post, heq, hpost⟩ | ⟨hb, hni⟩)
        · exact Or.inl ⟨Op.setError f msg :: pre, d, post, by rw [heq]; rfl, hpost⟩
        · exact Or.inr ⟨hb, by simp [hni]⟩
      · rintro (⟨pre, d, post, heq, hpost⟩ | ⟨hb, hni⟩)
        · cases pre with
          | nil => simp at heq
          | cons p0 pre2 =>
            simp only [List.cons_append, List.cons.injEq] at heq
            exact Or.inl ⟨pre2, d, post, heq.2, hpost⟩
        · exact Or.inr ⟨hb, fun hm => hni (List.mem_cons_of_mem _ hm)⟩

lemma runOps_gender_none (rules : RequiredValidationRules)
    (hg : rules.isGenderRequired = false) :
    ∀ (ops : List Op) (s : ValidatorState), s.errors.gender = none →
      (∀ f msg, Op.setError f msg ∈ ops → f ≠ ErrorField.gender) →
      (runOps rules s ops).errors.gender = none := by
  intro ops
  induction ops with
  | nil => intro s hs _; exact hs
  | cons op rest ih =>
    intro s hs hmem
    have hrest : ∀ f msg, Op.setError f msg ∈ rest → f ≠ ErrorField.gender :=
      fun f msg hm => hmem f msg (List.mem_cons_of_mem _ hm)
    cases op with
    | vField a v => exact ih s hs hrest
    | vForm data =>
      apply ih _ _ hrest
      simp [step, validateFormCall, validateForm, hg]
    | clearErrors =>
      apply ih _ _ hrest
      rfl
    | clearFieldError f =>
      apply ih _ _ hrest
      cases f <;> simp [step, clearFieldError, hs]
    | setError f msg =>
      apply ih _ _ hrest
      have hf : f ≠ ErrorField.gender := hmem f msg (List.mem_cons_self _ _)
      cases f <;> simp [step, setError, hs]
      exact absurd rfl hf

/-- C1: `validateForm` validates `username` and `password` unconditionally and
`gender` only when `isGenderRequired` is true, aggregates exactly the fields
that produced an error (omitting valid fields and never setting `form`), and
returns the empty map iff `validateField` reports no error for every field
required by the current configuration. -/
theorem validateForm_spec :
    ∀ (rules : RequiredValidationRules) (data : FormData),
      validateField rules "username" data.username = .ok ((validateForm rules data).username) ∧
      validateField rules "password" data.password = .ok ((validateForm rules data).password) ∧
      (rules.isGenderRequired = true →
        validateField rules "gender" (data.gender.getD "") =
          .ok ((validateForm rules data).gender)) ∧
      (rules.isGenderRequired = false → (validateForm rules data).gender = none) ∧
      (validateForm rules data).form = none ∧
      (validateForm rules data = emptyErrors ↔
        (validateField rules "username" data.username = .ok none ∧
          validateField rules "password" data.password = .ok none ∧
          (rules.isGenderRequired = true →
            validateField rules "gender" (data.gender.getD "") = .ok none))) := by
  intro rules data
  rw [validateField_username, validateField_password, validateField_gender]
  by_cases hg : rules.isGenderRequired
  · simp [validateForm, emptyErrors, hg, ValidationErrors.mk.injEq]
  · simp only [Bool.not_eq_true] at hg
    simp [validateForm, emptyErrors, hg, ValidationErrors.mk.injEq]

theorem validateForm_spec_witness :
    validateForm DEFAULT_RULES { username := "alice", password := "Passw0rd!" } =
      emptyErrors :=
  (validateForm_spec DEFAULT_RULES
    { username := "alice", password := "Passw0rd!" }).2.2.2.2.2.mpr
    ⟨rfl, rfl, fun h => absurd h (by decide)⟩

/-- C2: `validateField` on `username` yields `TooShort` exactly when the length
is below `usernameMinLength`, `TooLong` exactly when it exceeds
`usernameMaxLength`, and no error otherwise; under default rules
`validateForm {username := ab, password := Passw0rd!}` yields exactly
`{username := TooShort}`. -/
theorem username_field_spec :
    (∀ (rules : RequiredValidationRules) (v : String),
      (validateField rules "username" v = .ok (some "TooShort") ↔
        v.length < rules.usernameMinLength) ∧
      (validateField rules "username" v = .ok (some "TooLong") ↔
        (rules.usernameMinLength ≤ v.length ∧ rules.usernameMaxLength < v.length)) ∧
      (validateField rules "username" v = .ok none ↔
        (rules.usernameMinLength ≤ v.length ∧ v.length ≤ rules.usernameMaxLength))) ∧
    validateForm DEFAULT_RULES { username := "ab", password := "Passw0rd!" } =
      { username := some "TooShort" } := by
  constructor
  · intro rules v
    rw [validateField_username]
    by_cases h1 : v.length < rules.usernameMinLength
    · simp [validateUsername, h1]
    · by_cases h2 : v.length > rules.usernameMaxLength
      · simp [validateUsername, h1, h2]; omega
      · simp [validateUsername, h1, h2]; omega
  · decide

theorem username_field_spec_witness :
    ("ab" : String).length < DEFAULT_RULES.usernameMinLength ∧
    validateField DEFAULT_RULES "username" "ab" = .ok (some "TooShort") :=
  ⟨by decide, (username_field_spec.1 DEFAULT_RULES "ab").1.mpr (by decide)⟩

/-- C3: `validateField` on `password` yields `TooShort` exactly when the length
is below `passwordMinLength` and, with `passwordRequireSpecialChars` set,
`MissingSpecialChar` exactly when no character outside `[A-Za-z0-9]` occurs;
under default rules `validateForm {username := alice, password := longenough}`
yields exactly `{password := MissingSpecialChar}`. -/
theorem password_field_spec :
    (∀ (rules : RequiredValidationRules) (v : String),
      (validateField rules "password" v = .ok (some "TooShort") ↔
        v.length < rules.passwordMinLength) ∧
      (validateField rules "password" v = .ok (some "MissingSpecialChar") ↔
        (rules.passwordMinLength ≤ v.length ∧
          rules.passwordRequireSpecialChars = true ∧ hasSpecialChar v = false)) ∧
      (validateField rules "password" v = .ok none ↔
        (rules.passwordMinLength ≤ v.length ∧
          (rules.passwordRequireSpecialChars = true → hasSpecialChar v = true)))) ∧
    validateForm DEFAULT_RULES { username := "alice", password := "longenough" } =
      { password := some "MissingSpecialChar" } := by
  constructor
  · intro rules v
    rw [validateField_password]
    by_cases h1 : v.length < rules.passwordMinLength
    · simp [validatePassword, h1]
    · by_cases h2 : rules.passwordRequireSpecialChars = true
      · by_cases h3 : hasSpecialChar v = true
        · simp [validatePassword, h1, h2, h3]; omega
        · simp [validatePassword, h1, h2, h3]; omega
      · simp [validatePassword, h1, h2]; simp_all
  · decide

theorem password_field_spec_witness :
    (DEFAULT_RULES.passwordMinLength ≤ ("longenough" : String).length ∧
      DEFAULT_RULES.passwordRequireSpecialChars = true ∧
      hasSpecialChar "longenough" = false) ∧
    validateField DEFAULT_RULES "password" "longenough" = .ok (some "MissingSpecialChar") :=
  ⟨by decide, (password_field_spec.1 DEFAULT_RULES "longenough").2.1.mpr (by decide)⟩

/-- C4: with `isGenderRequired` false, `validateField` on `gender` returns no
error for any value; with it true, it yields `Required` exactly on the empty
value and `InvalidOption` exactly on a non-empty value outside
`genderOptions`. -/
theorem gender_field_spec :
    ∀ (rules : RequiredValidationRules) (v : String),
      (rules.isGenderRequired = false → validateField rules "gender" v = .ok none) ∧
      (rules.isGenderRequired = true →
        ((validateField rules "gender" v = .ok (some "Required") ↔ v = "") ∧
          (validateField rules "gender" v = .ok (some "InvalidOption") ↔
            (v ≠ "" ∧ rules.genderOptions.contains v = false)))) := by
  intro rules v
  rw [validateField_gender]
  constructor
  · intro hg
    simp [validateGender, hg]
  · intro hg
    by_cases h1 : v = ""
    · subst h1
      have he : ("" : String).isEmpty = true := rfl
      simp [validateGender, hg, he]
    · have he : v.isEmpty = false := by
        cases hb : v.isEmpty
        · rfl
        · exact absurd ((String.isEmpty_iff v).mp hb) h1
      by_cases h2 : rules.genderOptions.contains v = true
      · simp [validateGender, hg, h1, he, h2]
      · simp [validateGender, hg, h1, he, h2]

theorem gender_field_spec_witness :
    (mergeRules { isGenderRequired := some true }).isGenderRequired = true ∧
    validateField (mergeRules { isGenderRequired := some true }) "gender" "" =
      .ok (some "Required") :=
  ⟨by decide,
    ((gender_field_spec (mergeRules { isGenderRequired := some true }) "").2
      (by decide)).1.mpr rfl⟩

/-- C5: the merged configuration takes the caller's value on every key the
caller supplies and the default on every key the caller omits, per key
independently; `{passwordMinLength := 10}` yields the default for every other
rule, and the defaults are 3, 20, 8, true, false and
`[male, female, other, prefer-not-to-say]`. -/
theorem mergeRules_spec :
    (∀ rules : ValidationRules,
      ((∀ n, rules.usernameMinLength = some n → (mergeRules rules).usernameMinLength = n) ∧
        (rules.usernameMinLength = none →
          (mergeRules rules).usernameMinLength = DEFAULT_RULES.usernameMinLength)) ∧
      ((∀ n, rules.usernameMaxLength = some n → (mergeRules rules).usernameMaxLength = n) ∧
        (rules.usernameMaxLength = none →
          (mergeRules rules).usernameMaxLength = DEFAULT_RULES.usernameMaxLength)) ∧
      ((∀ n, rules.passwordMinLength = some n → (mergeRules rules).passwordMinLength = n) ∧
        (rules.passwordMinLength = none →
          (mergeRules rules).passwordMinLength = DEFAULT_RULES.passwordMinLength)) ∧
      ((∀ b, rules.passwordRequireSpecialChars = some b →
          (mergeRules rules).passwordRequireSpecialChars = b) ∧
        (rules.passwordRequireSpecialChars = none →
          (mergeRules rules).passwordRequireSpecialChars =
            DEFAULT_RULES.passwordRequireSpecialChars)) ∧
      ((∀ b, rules.isGenderRequired = some b → (mergeRules rules).isGenderRequired = b) ∧
        (rules.isGenderRequired = none →
          (mergeRules rules).isGenderRequired = DEFAULT_RULES.isGenderRequired)) ∧
      ((∀ l, rules.genderOptions = some l → (mergeRules rules).genderOptions = l) ∧
        (rules.genderOptions = none →
          (mergeRules rules).genderOptions = DEFAULT_RULES.genderOptions))) ∧
    mergeRules { passwordMinLength := some 10 } =
      { usernameMinLength := 3, usernameMaxLength := 20, passwordMinLength := 10,
        passwordRequireSpecialChars := true, isGenderRequired := false,
        genderOptions := ["male", "female", "other", "prefer-not-to-say"] } ∧
    DEFAULT_RULES =
      { usernameMinLength := 3, usernameMaxLength := 20, passwordMinLength := 8,
        passwordRequireSpecialChars := true, isGenderRequired := false,
        genderOptions := ["male", "female", "other", "prefer-not-to-say"] } := by
  refine ⟨fun rules => ?_, by decide, by decide⟩
  refine ⟨⟨fun n h => ?_, fun h => ?_⟩, ⟨fun n h => ?_, fun h => ?_⟩, ⟨fun n h => ?_, fun h => ?_⟩,
    ⟨fun b h => ?_, fun h => ?_⟩, ⟨fun b h => ?_, fun h => ?_⟩, ⟨fun l h => ?_, fun h => ?_⟩⟩ <;>
  simp [mergeRules, h]

theorem mergeRules_spec_witness :
    ({ passwordMinLength := some 10 } : ValidationRules).usernameMinLength = none ∧
    (mergeRules { passwordMinLength := some 10 }).usernameMinLength =
      DEFAULT_RULES.usernameMinLength :=
  ⟨rfl, (mergeRules_spec.1 { passwordMinLength := some 10 }).1.2 rfl⟩

/-- C6: a `validateForm` call stores exactly the map it returns and sets the
attempted flag; `isValid` holds iff the stored map is empty; `clearErrors`
resets the state to its construction value; and over every operation sequence
from construction, `hasValidationAttempted` is true exactly when some
`validateForm` call occurs with no `clearErrors` after it. -/
theorem errorState_spec :
    (∀ (rules : RequiredValidationRules) (data : FormData) (s : ValidatorState),
      (validateFormCall rules data s).1 = (validateFormCall rules data s).2.errors ∧
      (validateFormCall rules data s).2.hasValidationAttempted = true) ∧
    (∀ e : ValidationErrors, isValid e = true ↔ e = emptyErrors) ∧
    (∀ (rules : RequiredValidationRules) (s : ValidatorState),
      step rules s Op.clearErrors = initialState) ∧
    (∀ (rules : RequiredValidationRules) (ops : List Op),
      (runOps rules initialState ops).hasValidationAttempted = true ↔
        ∃ pre data post, ops = pre ++ Op.vForm data :: post ∧ Op.clearErrors ∉ post) := by
  refine ⟨fun rules data s => ⟨rfl, rfl⟩, ?_, fun rules s => rfl, ?_⟩
  · rintro ⟨u, p, g, f⟩
    cases u <;> cases p <;> cases g <;> cases f <;>
      simp [isValid, errorKeys, emptyErrors]
  · intro rules ops
    rw [runOps_flag]
    rw [show initialState.hasValidationAttempted = false from rfl, flagAfter_true_iff]
    simp

theorem errorState_spec_witness :
    (runOps DEFAULT_RULES initialState
      [Op.vForm { username := "alice", password := "Passw0rd!" }]).hasValidationAttempted =
      true :=
  (errorState_spec.2.2.2 DEFAULT_RULES
    [Op.vForm { username := "alice", password := "Passw0rd!" }]).mpr
    ⟨[], { username := "alice", password := "Passw0rd!" }, [], rfl, by simp⟩

/-- C7, counterexample: with `isGenderRequired` false (default rules), the
single operation `setError gender ServerRejected` reaches a state whose error
map contains a `gender` entry, refuting the claim as stated. -/
theorem gender_invariant_counterexample :
    DEFAULT_RULES.isGenderRequired = false ∧
    (runOps DEFAULT_RULES initialState
        [Op.setError ErrorField.gender "ServerRejected"]).errors.gender =
      some "ServerRejected" := by
  decide

/-- C7, amended: with `isGenderRequired` false, every state reachable by a
sequence of operations that never calls `setError` on the `gender` key has no
`gender` entry in its error map. -/
theorem gender_entry_invariant (rules : RequiredValidationRules) (ops : List Op)
    (hg : rules.isGenderRequired = false)
    (hops : ∀ f msg, Op.setError f msg ∈ ops → f ≠ ErrorField.gender) :
    (runOps rules initialState ops).errors.gender = none :=
  runOps_gender_none rules hg ops initialState rfl hops

theorem gender_entry_invariant_witness :
    DEFAULT_RULES.isGenderRequired = false ∧
    (runOps DEFAULT_RULES initialState
      [Op.vForm { username := "ab", password := "x", gender := some "zzz" },
        Op.setError ErrorField.form "ServerDown"]).errors.gender = none :=
  ⟨rfl,
    gender_entry_invariant DEFAULT_RULES
      [Op.vForm { username := "ab", password := "x", gender := some "zzz" },
        Op.setError ErrorField.form "ServerDown"] rfl
      (by
        intro f msg hm
        simp only [List.mem_cons, List.not_mem_nil, or_false, reduceCtorEq, false_or] at hm
        obtain ⟨rfl, rfl⟩ := hm
        decide)⟩

/-- C8: `clearFieldError f` removes exactly the key `f` from the error map,
leaves every other key (including `form`) and the attempted flag unchanged,
and is a no-op on the whole state when `f` is absent. -/
theorem clearFieldError_spec (rules : RequiredValidationRules) (s : ValidatorState)
    (f : FieldName) :
    getField (step rules s (Op.clearFieldError f)).errors f = none ∧
    (∀ g : FieldName, g ≠ f →
      getField (step rules s (Op.clearFieldError f)).errors g = getField s.errors g) ∧
    (step rules s (Op.clearFieldError f)).errors.form = s.errors.form ∧
    (step rules s (Op.clearFieldError f)).hasValidationAttempted =
      s.hasValidationAttempted ∧
    (getField s.errors f = none → step rules s (Op.clearFieldError f) = s) := by
  refine ⟨?_, ?_, ?_, ?_, ?_⟩
  · cases f <;> rfl
  · intro g hgf
    cases f <;> cases g <;> first | rfl | exact absurd rfl hgf
  · cases f <;> rfl
  · rfl
  · intro habs
    rcases s with ⟨⟨u, p, g0, fm⟩, flag⟩
    cases f <;> simp [step, clearFieldError, getField] at habs ⊢ <;> simp [habs]

theorem clearFieldError_spec_witness :
    FieldName.password ≠ FieldName.username ∧
    getField
      (step DEFAULT_RULES
        ⟨⟨some "UserErr", some "PassErr", none, none⟩, true⟩
        (Op.clearFieldError FieldName.username)).errors FieldName.password =
      some "PassErr" :=
  ⟨by decide,
    ((clearFieldError_spec DEFAULT_RULES
        ⟨⟨some "UserErr", some "PassErr", none, none⟩, true⟩ FieldName.username).2.1
      FieldName.password (by decide)).trans rfl⟩

/-- C9: `validateField` on each known field name returns its outcome as data
(`Except.ok`), while an unknown field name fails abruptly with the distinct
`UnknownField` signal (`Except.error`). -/
theorem unknownField_spec :
    ∀ (rules : RequiredValidationRules) (name value : String),
      ((name = "username" ∨ name = "password" ∨ name = "gender") →
        ∃ r, validateField rules name value = .ok r) ∧
      (name ≠ "username" → name ≠ "password" → name ≠ "gender" →
        validateField rules name value = .error "UnknownField") := by
  intro rules name value
  constructor
  · rintro (rfl | rfl | rfl)
    · exact ⟨_, validateField_username rules value⟩
    · exact ⟨_, validateField_password rules value⟩
    · exact ⟨_, validateField_gender rules value⟩
  · intro h1 h2 h3
    simp [validateField, h1, h2, h3]

theorem unknownField_spec_witness :
    (("emial" : String) ≠ "username" ∧ ("emial" : String) ≠ "password" ∧
      ("emial" : String) ≠ "gender") ∧
    validateField DEFAULT_RULES "emial" "x" = .error "UnknownField" :=
  ⟨by decide,
    (unknownField_spec DEFAULT_RULES "emial" "x").2 (by decide) (by decide) (by decide)⟩

/-- C10: under the runtime semantics of the spread merge, a key the caller
supplies — even with an explicitly undefined value — overwrites the default
with that value, so `{passwordMinLength := undefined}` yields an undefined
`passwordMinLength`, and defaults apply only to absent keys. -/
theorem spread_undefined_overrides :
    (∀ rules : JSValidationRules,
      ((∀ v, rules.usernameMinLength = some v → (spreadMergeRules rules).usernameMinLength = v) ∧
        (rules.usernameMinLength = none →
          (spreadMergeRules rules).usernameMinLength = some DEFAULT_RULES.usernameMinLength)) ∧
      ((∀ v, rules.usernameMaxLength = some v → (spreadMergeRules rules).usernameMaxLength = v) ∧
        (rules.usernameMaxLength = none →
          (spreadMergeRules rules).usernameMaxLength = some DEFAULT_RULES.usernameMaxLength)) ∧
      ((∀ v, rules.passwordMinLength = some v → (spreadMergeRules rules).passwordMinLength = v) ∧
        (rules.passwordMinLength = none →
          (spreadMergeRules rules).passwordMinLength = some DEFAULT_RULES.passwordMinLength)) ∧
      ((∀ v, rules.passwordRequireSpecialChars = some v →
          (spreadMergeRules rules).passwordRequireSpecialChars = v) ∧
        (rules.passwordRequireSpecialChars = none →
          (spreadMergeRules rules).passwordRequireSpecialChars =
            some DEFAULT_RULES.passwordRequireSpecialChars)) ∧
      ((∀ v, rules.isGenderRequired = some v → (spreadMergeRules rules).isGenderRequired = v) ∧
        (rules.isGenderRequired = none →
          (spreadMergeRules rules).isGenderRequired = some DEFAULT_RULES.isGenderRequired)) ∧
      ((∀ v, rules.genderOptions = some v → (spreadMergeRules rules).genderOptions = v) ∧
        (rules.genderOptions = none →
          (spreadMergeRules rules).genderOptions = some DEFAULT_RULES.genderOptions))) ∧
    (spreadMergeRules { passwordMinLength := some none }).passwordMinLength = none ∧
    (spreadMergeRules { passwordMinLength := some none }).passwordMinLength ≠
      some DEFAULT_RULES.passwordMinLength := by
  refine ⟨fun rules => ?_, by decide, by decide⟩
  refine ⟨⟨fun v h => ?_, fun h => ?_⟩, ⟨fun v h => ?_, fun h => ?_⟩, ⟨fun v h => ?_, fun h => ?_⟩,
    ⟨fun v h => ?_, fun h => ?_⟩, ⟨fun v h => ?_, fun h => ?_⟩, ⟨fun v h => ?_, fun h => ?_⟩⟩ <;>
  simp [spreadMergeRules, h]

theorem spread_undefined_overrides_witness :
    ({ passwordMinLength := some none } : JSValidationRules).passwordMinLength =
      some none ∧
    (spreadMergeRules { passwordMinLength := some none }).passwordMinLength = none :=
  ⟨rfl, (spread_undefined_overrides.1 { passwordMinLength := some none }).2.2.1.1 none rfl⟩

end FormValidation
